import Mathlib

/-!
Verification of the TravelSafe backend core (Python sources under
`backend/services/`): the geospatial incident aggregator
(`incident_service.py`, `crime_service.py`) and the score fusion engine
(`safety_scorer.py`).

Modelling conventions:
* Python `float`/numeric JSON values are modelled as `Rat` (exact
  arithmetic); Python `int(x)` truncation toward zero is `ratTrunc`.
* `geopy.distance.geodesic(...).kilometers` is an external library call;
  it is modelled as an abstract distance function `DistFn` over which all
  statements quantify.
* Timestamps (`datetime`, ISO strings) are modelled as `Int` seconds;
  `timedelta(days=30)` is `thirtyDays = 30 * 86400` and
  `datetime.fromisoformat(t) > now - 30 days` becomes
  `now - thirtyDays < t`.
* Well-formed incident records (as always written by `report_incident`)
  are the structure `Incident`; raw stored JSON records, whose fields may
  be missing, are `StoredIncident` with `Option` fields, and the
  aggregation over them returns `Except String _`, an error modelling the
  Python `KeyError` raised on a missing dict key.
* Python dicts with optionally-present keys read via `.get(k, d)` are
  structures with `Option` fields read via `Option.getD`.
-/

/-- Python `int(q)` for a rational: truncation toward zero (floor for
nonnegative values, ceiling for negative ones). -/
def ratTrunc (q : Rat) : Int := if 0 ≤ q then ⌊q⌋ else ⌈q⌉

/-- Abstract model of `geodesic((lat1, lon1), (lat2, lon2)).kilometers`. -/
abbrev DistFn := Rat → Rat → Rat → Rat → Rat

/-- `timedelta(days=30)` in seconds. -/
def thirtyDays : Int := 30 * 86400

/-- A well-formed incident record, as written by `report_incident`
(`incident_service.py` lines 43-51). The `distance_km` annotation added by
`get_incidents_near_location` is omitted: no scoring logic reads it. -/
structure Incident where
  id : Nat
  latitude : Rat
  longitude : Rat
  incident_type : String
  description : String
  reported_at : Int
  verified : Bool
deriving DecidableEq

/-- Result dict of `report_incident`. -/
structure ReportResult where
  success : Bool
  incident_id : Nat
  message : String
deriving DecidableEq

/-- `report_incident` (`incident_service.py` lines 28-60): loads the store,
appends a new record (id = len + 1, reported_at = now, verified = False)
and returns a confirmation dict. The store is passed and returned
explicitly in place of the `incidents.json` file. -/
def report_incident (now : Int) (store : List Incident)
    (latitude longitude : Rat) (incident_type description : String) :
    List Incident × ReportResult :=
  let new_incident : Incident :=
    { id := store.length + 1
      latitude := latitude
      longitude := longitude
      incident_type := incident_type
      description := description
      reported_at := now
      verified := false }
  (store ++ [new_incident],
   { success := true
     incident_id := new_incident.id
     message := "Incident reported successfully" })

/-- `get_incidents_near_location` (`incident_service.py` lines 62-87):
keep the incidents whose distance to the query point is ≤ radius_km. -/
def get_incidents_near_location (dist : DistFn)
    (latitude longitude radius_km : Rat) (incidents : List Incident) :
    List Incident :=
  incidents.filter fun inc =>
    decide (dist latitude longitude inc.latitude inc.longitude ≤ radius_km)

/-- The crime statistics dict returned by
`calculate_crime_score_from_incidents`. -/
structure CrimeSignal where
  crime_rate : Int
  safety_level : String
  recent_incidents : Nat
  total_incidents : Nat
  incident_types : List String
deriving DecidableEq

/-- The safety-level threshold ladder of `incident_service.py`
lines 144-153. -/
def safetyLevelOfRate (rate : Int) : String :=
  if rate < 30 then "very_safe"
  else if rate < 50 then "safe"
  else if rate < 70 then "moderate"
  else if rate < 85 then "caution"
  else "unsafe"

/-- `calculate_crime_score_from_incidents` (`incident_service.py` lines
89-164) over well-formed records: filter by radius, count recent
incidents, then either the empty-area result (rate 10, very_safe) or
`min(100, 10 + 15 * total + 10 * recent)` with the threshold ladder. -/
def calculate_crime_score_from_incidents (dist : DistFn) (now : Int)
    (latitude longitude radius_km : Rat) (stored : List Incident) :
    CrimeSignal :=
  let incidents :=
    get_incidents_near_location dist latitude longitude radius_km stored
  let incident_count := incidents.length
  let thirty_days_ago := now - thirtyDays
  let recent_count :=
    incidents.countP fun inc => decide (thirty_days_ago < inc.reported_at)
  if incidents.isEmpty then
    { crime_rate := 10
      safety_level := "very_safe"
      recent_incidents := 0
      total_incidents := 0
      incident_types := [] }
  else
    let crime_rate : Int :=
      min 100 (10 + (incident_count : Int) * 15 + (recent_count : Int) * 10)
    { crime_rate := crime_rate
      safety_level := safetyLevelOfRate crime_rate
      recent_incidents := recent_count
      total_incidents := incident_count
      incident_types := (incidents.map (·.incident_type)).eraseDups }

/-- A raw stored JSON record: any of the dict keys used by the
aggregation may be missing (`none`). A `reported_at` string that
`datetime.fromisoformat` cannot parse is also modelled as `none`. -/
structure StoredIncident where
  latitude : Option Rat
  longitude : Option Rat
  incident_type : Option String
  reported_at : Option Int
deriving DecidableEq

/-- `get_incidents_near_location` over raw stored records: reading
`incident["latitude"]` / `incident["longitude"]` on a record missing the
key raises `KeyError` (`incident_service.py` lines 78-80), which aborts
the whole loop; modelled as `Except.error`. -/
def get_incidents_near_locationE (dist : DistFn)
    (latitude longitude radius_km : Rat) :
    List StoredIncident → Except String (List StoredIncident)
  | [] => .ok []
  | inc :: rest =>
    match inc.latitude, inc.longitude with
    | some ilat, some ilon =>
      match get_incidents_near_locationE dist latitude longitude radius_km rest with
      | .error e => .error e
      | .ok rest' =>
        if dist latitude longitude ilat ilon ≤ radius_km then
          .ok (inc :: rest')
        else
          .ok rest'
    | _, _ => .error "KeyError: latitude/longitude"

/-- The recent-incident count of `incident_service.py` lines 111-114 over
raw records: `datetime.fromisoformat(inc["reported_at"])` raises on a
missing (or unparseable) `reported_at`. -/
def countRecentE (now : Int) : List StoredIncident → Except String Nat
  | [] => .ok 0
  | inc :: rest =>
    match inc.reported_at with
    | some t =>
      match countRecentE now rest with
      | .error e => .error e
      | .ok n => .ok ((if now - thirtyDays < t then 1 else 0) + n)
    | none => .error "KeyError: reported_at"

/-- The `incident_type` extraction of `incident_service.py` line 141 over
raw records: `inc["incident_type"]` raises on a missing key. -/
def incidentTypesE : List StoredIncident → Except String (List String)
  | [] => .ok []
  | inc :: rest =>
    match inc.incident_type with
    | some t =>
      match incidentTypesE rest with
      | .error e => .error e
      | .ok ts => .ok (t :: ts)
    | none => .error "KeyError: incident_type"

/-- `calculate_crime_score_from_incidents` over raw stored records: any
`KeyError` raised while filtering, counting recent incidents or reading
incident types propagates out of the function (`Except.error`); no record
is skipped. -/
def calculate_crime_score_from_incidentsE (dist : DistFn) (now : Int)
    (latitude longitude radius_km : Rat) (stored : List StoredIncident) :
    Except String CrimeSignal :=
  match get_incidents_near_locationE dist latitude longitude radius_km stored with
  | .error e => .error e
  | .ok incidents =>
    match countRecentE now incidents with
    | .error e => .error e
    | .ok recent_count =>
      if incidents.isEmpty then
        .ok { crime_rate := 10
              safety_level := "very_safe"
              recent_incidents := 0
              total_incidents := 0
              incident_types := [] }
      else
        match incidentTypesE incidents with
        | .error e => .error e
        | .ok types =>
          let crime_rate : Int :=
            min 100
              (10 + (incidents.length : Int) * 15 + (recent_count : Int) * 10)
          .ok { crime_rate := crime_rate
                safety_level := safetyLevelOfRate crime_rate
                recent_incidents := recent_count
                total_incidents := incidents.length
                incident_types := types.eraseDups }

/-- The dict returned by `get_crime_data` (`crime_service.py`), restricted
to the keys shared by its success and fallback branches; `error` is the
caught exception message (`none` on success). -/
structure CrimeDataOut where
  crime_rate : Int
  safety_level : String
  recent_incidents : Nat
  error : Option String
deriving DecidableEq

/-- `get_crime_data` (`crime_service.py` lines 7-28): delegate to the
aggregation and on any exception return the neutral fallback dict
`{crime_rate: 20, safety_level: "safe", recent_incidents: 0, error: e}`. -/
def get_crime_data (dist : DistFn) (now : Int)
    (latitude longitude radius_km : Rat) (stored : List StoredIncident) :
    CrimeDataOut :=
  match calculate_crime_score_from_incidentsE dist now latitude longitude
      radius_km stored with
  | .ok r =>
    { crime_rate := r.crime_rate
      safety_level := r.safety_level
      recent_incidents := r.recent_incidents
      error := none }
  | .error e =>
    { crime_rate := 20
      safety_level := "safe"
      recent_incidents := 0
      error := some e }

/-- The `road_hazards` sub-dict of the hazard indicators; a key read with
`.get(k, False)` on a missing key yields `False`, so plain `Bool` fields
are extensionally faithful. -/
structure RoadHazards where
  construction_roadwork : Bool
  water_flooding : Bool
  obstacles_debris : Bool
  poor_road_condition : Bool
  traffic_hazards : Bool
deriving DecidableEq

/-- The `indicators` dict consumed by `calculate_safety_score`; every
field is read with a `.get` default (`road_hazards` {}, `hazard_severity`
"none", `travel_safe` True, `lighting` "moderate", `people_present` False,
`cleanliness` "moderate"), so total fields carrying the defaulted value
are extensionally faithful. -/
structure HazardIndicators where
  road_hazards : RoadHazards
  hazard_severity : String
  travel_safe : Bool
  lighting : String
  people_present : Bool
  cleanliness : String
deriving DecidableEq

/-- The `image_analysis` argument of `calculate_safety_score`.
`indicators = none` models a missing, empty or non-dict `indicators`
entry (the three cases the `has_image_analysis` guard of
`safety_scorer.py` lines 28-34 treats identically); `error` is the
truthiness of the `error` entry. -/
structure ImageAnalysis where
  indicators : Option HazardIndicators
  error : Bool
deriving DecidableEq

/-- The `weather_data` argument: `safety_impact` may be missing. -/
structure WeatherData where
  safety_impact : Option String
deriving DecidableEq

/-- The `crime_data` argument of the fusion: `crime_rate` may be
missing. -/
structure CrimeInput where
  crime_rate : Option Rat
deriving DecidableEq

/-- The image-factor score of `safety_scorer.py` lines 37-98: severity
penalty (or per-hazard penalty when no recognised severity applies),
conditional travel-safe penalty, lighting / people / cleanliness
adjustments, clamped to [5, 100]. -/
def imageScore (indicators : HazardIndicators) : Int :=
  let img0 : Int := 50
  let rh := indicators.road_hazards
  let hazard_count : Int :=
    (if rh.construction_roadwork then 1 else 0) +
    (if rh.water_flooding then 1 else 0) +
    (if rh.obstacles_debris then 1 else 0) +
    (if rh.poor_road_condition then 1 else 0) +
    (if rh.traffic_hazards then 1 else 0)
  let img1 : Int :=
    if indicators.hazard_severity = "critical" then img0 - 40
    else if indicators.hazard_severity = "high" then img0 - 30
    else if indicators.hazard_severity = "moderate" then img0 - 20
    else if indicators.hazard_severity = "low" then img0 - 12
    else if 0 < hazard_count then img0 - hazard_count * 8
    else img0
  let img2 : Int :=
    if ¬indicators.travel_safe ∧
        (indicators.hazard_severity = "none" ∨
         indicators.hazard_severity = "low") then
      img1 - 15
    else img1
  let img3 : Int :=
    if indicators.lighting = "good" then img2 + 10
    else if indicators.lighting = "moderate" then img2 + 3
    else img2 - 3
  let img4 : Int := if indicators.people_present then img3 + 5 else img3
  let img5 : Int :=
    if indicators.cleanliness = "good" then img4 + 5
    else if indicators.cleanliness = "moderate" then img4 + 2
    else img4 - 2
  max 5 (min 100 img5)

/-- The result dict of `calculate_safety_score`; the three `breakdown`
entries are the pre-blend per-factor values (`image_analysis` is `none`
when no image contributed). -/
structure SafetyScoreResult where
  safety_score : Int
  safety_level : String
  alert : Bool
  image_analysis : Option Int
  weather : Int
  crime_data : Rat
deriving DecidableEq

/-- `calculate_safety_score` (`safety_scorer.py` lines 7-157): start at
50; blend in the image factor (weight 0.4) only when indicators are
present, non-empty and error-free; blend in the weather factor
(weight 0.25) and the crime factor (weight 0.4); truncate to integer and
clamp to [1, 100]; derive level and alert from the final thresholds. -/
def calculate_safety_score (image_analysis : ImageAnalysis)
    (weather_data : WeatherData) (crime_data : CrimeInput) :
    SafetyScoreResult :=
  let score0 : Rat := 50
  let step1 : Rat × Option Int :=
    match image_analysis.indicators with
    | some indicators =>
      if image_analysis.error then (score0, none)
      else
        let img_score := imageScore indicators
        (score0 * (6 / 10) + (img_score : Rat) * (4 / 10), some img_score)
    | none => (score0, none)
  let score1 := step1.1
  let weather_impact := weather_data.safety_impact.getD "neutral"
  let weather_score : Int :=
    if weather_impact = "negative" then 30
    else if weather_impact = "positive" then 70
    else 50
  let score2 := score1 * (3 / 4) + (weather_score : Rat) * (1 / 4)
  let crime_rate := crime_data.crime_rate.getD 50
  let crime_score : Rat := 100 - crime_rate
  let score3 := score2 * (6 / 10) + crime_score * (4 / 10)
  let final_score : Int := max 1 (min 100 (ratTrunc score3))
  let level : String :=
    if 80 ≤ final_score then "very_safe"
    else if 60 ≤ final_score then "safe"
    else if 40 ≤ final_score then "moderate"
    else if 20 ≤ final_score then "caution"
    else "unsafe"
  let alert : Bool :=
    if 80 ≤ final_score then false
    else if 60 ≤ final_score then false
    else if 40 ≤ final_score then false
    else if 20 ≤ final_score then true
    else true
  { safety_score := final_score
    safety_level := level
    alert := alert
    image_analysis := step1.2
    weather := weather_score
    crime_data := crime_score }

/-- A distance function under which every point is within every radius
(used to instantiate `DistFn` at concrete inputs). -/
def distZero : DistFn := fun _ _ _ _ => 0

/-- A concrete incident reported at the query time (recent). -/
def incRecent : Incident := ⟨1, 0, 0, "theft", "", 0, false⟩

/-- A concrete incident reported exactly 30 days before time 0 (not
recent: the recency test is strict). -/
def incOld : Incident := ⟨2, 0, 0, "theft", "", -thirtyDays, false⟩

lemma crime_rate_eq (dist : DistFn) (now : Int)
    (latitude longitude radius_km : Rat) (stored : List Incident) :
    (calculate_crime_score_from_incidents dist now latitude longitude
        radius_km stored).crime_rate
      = if (stored.filter fun inc =>
            decide (dist latitude longitude inc.latitude inc.longitude
              ≤ radius_km)).isEmpty then 10
        else
          min 100
            (10 +
              ((stored.filter fun inc =>
                decide (dist latitude longitude inc.latitude inc.longitude
                  ≤ radius_km)).length : Int) * 15 +
              ((stored.filter fun inc =>
                decide (dist latitude longitude inc.latitude inc.longitude
                  ≤ radius_km)).countP (fun inc =>
                    decide (now - thirtyDays < inc.reported_at)) : Int) * 10) := by
  simp only [calculate_crime_score_from_incidents, get_incidents_near_location]
  cases h : (stored.filter fun inc =>
      decide (dist latitude longitude inc.latitude inc.longitude ≤ radius_km)).isEmpty <;>
    simp [h]

lemma safety_level_eq (dist : DistFn) (now : Int)
    (latitude longitude radius_km : Rat) (stored : List Incident) :
    (calculate_crime_score_from_incidents dist now latitude longitude
        radius_km stored).safety_level
      = if (stored.filter fun inc =>
            decide (dist latitude longitude inc.latitude inc.longitude
              ≤ radius_km)).isEmpty then "very_safe"
        else
          safetyLevelOfRate
            (calculate_crime_score_from_incidents dist now latitude longitude
              radius_km stored).crime_rate := by
  simp only [calculate_crime_score_from_incidents, get_incidents_near_location]
  cases h : (stored.filter fun inc =>
      decide (dist latitude longitude inc.latitude inc.longitude ≤ radius_km)).isEmpty <;>
    simp [h]

/-- C1: for every query point, radius and time, the crime aggregation
returns rate 10 and level "very_safe" when no stored incident lies within
the radius; otherwise rate `min 100 (10 + 15*total + 10*recent)` with
`total` the matched count and `recent` those reported in the last 30
days, and the level derived from the rate by the fixed threshold
ladder. -/
theorem crime_aggregation_formula (dist : DistFn) (now : Int)
    (latitude longitude radius_km : Rat) (stored : List Incident) :
    (calculate_crime_score_from_incidents dist now latitude longitude
        radius_km stored).crime_rate
      = (if (stored.filter fun inc =>
            decide (dist latitude longitude inc.latitude inc.longitude
              ≤ radius_km)) = [] then 10
         else
          min 100
            (10 +
              ((stored.filter fun inc =>
                decide (dist latitude longitude inc.latitude inc.longitude
                  ≤ radius_km)).length : Int) * 15 +
              (((stored.filter fun inc =>
                decide (dist latitude longitude inc.latitude inc.longitude
                  ≤ radius_km)).filter fun inc =>
                    decide (now - thirtyDays < inc.reported_at)).length : Int) * 10)) ∧
    (calculate_crime_score_from_incidents dist now latitude longitude
        radius_km stored).safety_level
      = (if (stored.filter fun inc =>
            decide (dist latitude longitude inc.latitude inc.longitude
              ≤ radius_km)) = [] then "very_safe"
         else
          safetyLevelOfRate
            (calculate_crime_score_from_incidents dist now latitude longitude
              radius_km stored).crime_rate) := by
  constructor
  · rw [crime_rate_eq, List.countP_eq_length_filter]
    simp [List.isEmpty_iff]
  · rw [safety_level_eq]
    simp [List.isEmpty_iff]

/-- C3: the aggregation's crime_rate always lies in [0, 100]; the
fusion's safety_score is always an integer in [1, 100] and never 0. -/
theorem score_bounds :
    (∀ (dist : DistFn) (now : Int) (latitude longitude radius_km : Rat)
        (stored : List Incident),
      0 ≤ (calculate_crime_score_from_incidents dist now latitude longitude
            radius_km stored).crime_rate ∧
      (calculate_crime_score_from_incidents dist now latitude longitude
            radius_km stored).crime_rate ≤ 100) ∧
    (∀ (ia : ImageAnalysis) (w : WeatherData) (c : CrimeInput),
      1 ≤ (calculate_safety_score ia w c).safety_score ∧
      (calculate_safety_score ia w c).safety_score ≤ 100 ∧
      (calculate_safety_score ia w c).safety_score ≠ 0) := by
  constructor
  · intro dist now latitude longitude radius_km stored
    rw [crime_rate_eq]
    split
    · omega
    · omega
  · intro ia w c
    obtain ⟨io, e⟩ := ia
    have h : ∀ t : Int, 1 ≤ max 1 (min 100 t) ∧ max 1 (min 100 t) ≤ 100 ∧
        max 1 (min 100 t) ≠ 0 := by omega
    cases io <;> cases e <;> exact h _

/-- C2: fusing no image, neutral weather and crime_rate 35 yields
safety_score 56 (50 after the weather blend, then
50*0.6 + 65*0.4 = 56), level "moderate", alert false. -/
theorem fusion_neutral_scenario :
    (calculate_safety_score ⟨none, false⟩ ⟨some "neutral"⟩
        ⟨some 35⟩).safety_score = 56 ∧
    (calculate_safety_score ⟨none, false⟩ ⟨some "neutral"⟩
        ⟨some 35⟩).safety_level = "moderate" ∧
    (calculate_safety_score ⟨none, false⟩ ⟨some "neutral"⟩
        ⟨some 35⟩).alert = false := by
  simp [calculate_safety_score, ratTrunc]
  norm_num

lemma filter_append_singleton (stored : List Incident) (i : Incident)
    (p : Incident → Bool) (h : p i = true) :
    (stored ++ [i]).filter p = stored.filter p ++ [i] := by
  simp [List.filter_append, h]

lemma isEmpty_append_singleton (l : List Incident) (i : Incident) :
    (l ++ [i]).isEmpty = false := by
  cases l <;> rfl

/-- C4: for a fixed query, appending one incident within the radius never
decreases crime_rate, and the increase from appending a recent incident
is at least the increase from appending an identically-placed incident
older than 30 days. -/
theorem crime_rate_monotonic (dist : DistFn) (now : Int)
    (latitude longitude radius_km : Rat) (stored : List Incident)
    (i j : Incident) :
    (dist latitude longitude i.latitude i.longitude ≤ radius_km →
      (calculate_crime_score_from_incidents dist now latitude longitude
          radius_km stored).crime_rate
        ≤ (calculate_crime_score_from_incidents dist now latitude longitude
            radius_km (stored ++ [i])).crime_rate) ∧
    (dist latitude longitude i.latitude i.longitude ≤ radius_km →
      j.latitude = i.latitude → j.longitude = i.longitude →
      now - thirtyDays < i.reported_at →
      j.reported_at ≤ now - thirtyDays →
      (calculate_crime_score_from_incidents dist now latitude longitude
          radius_km (stored ++ [j])).crime_rate
        - (calculate_crime_score_from_incidents dist now latitude longitude
            radius_km stored).crime_rate
        ≤ (calculate_crime_score_from_incidents dist now latitude longitude
            radius_km (stored ++ [i])).crime_rate
          - (calculate_crime_score_from_incidents dist now latitude longitude
              radius_km stored).crime_rate) := by
  constructor
  · intro hin
    rw [crime_rate_eq, crime_rate_eq,
      filter_append_singleton _ _ _ (by simp [hin]), isEmpty_append_singleton]
    simp only [List.countP_append, List.length_append, List.countP_cons,
      List.countP_nil, List.length_cons, List.length_nil,
      Bool.false_eq_true, if_false]
    split <;> split <;> omega
  · intro hin hlat hlon hirec hjold
    have hjin : decide (dist latitude longitude j.latitude j.longitude
        ≤ radius_km) = true := by
      rw [hlat, hlon]; simp [hin]
    have hi : decide (now - thirtyDays < i.reported_at) = true := by
      simp [hirec]
    have hj : decide (now - thirtyDays < j.reported_at) = false := by
      simp; omega
    rw [crime_rate_eq, crime_rate_eq, crime_rate_eq,
      filter_append_singleton stored j _ hjin,
      filter_append_singleton stored i _ (by simp [hin]),
      isEmpty_append_singleton, isEmpty_append_singleton]
    simp only [List.countP_append, List.length_append, List.countP_cons,
      List.countP_nil, List.length_cons, List.length_nil,
      Bool.false_eq_true, if_false, hi, hj, if_true]
    split <;> omega

theorem crime_rate_monotonic_witness :
    ((calculate_crime_score_from_incidents distZero 0 0 0 1 []).crime_rate
      ≤ (calculate_crime_score_from_incidents distZero 0 0 0 1
          ([] ++ [incRecent])).crime_rate) ∧
    ((calculate_crime_score_from_incidents distZero 0 0 0 1
        ([] ++ [incOld])).crime_rate
      - (calculate_crime_score_from_incidents distZero 0 0 0 1 []).crime_rate
      ≤ (calculate_crime_score_from_incidents distZero 0 0 0 1
          ([] ++ [incRecent])).crime_rate
        - (calculate_crime_score_from_incidents distZero 0 0 0 1
            []).crime_rate) :=
  ⟨(crime_rate_monotonic distZero 0 0 0 1 [] incRecent incOld).1
      (by norm_num [distZero, incRecent]),
   (crime_rate_monotonic distZero 0 0 0 1 [] incRecent incOld).2
      (by norm_num [distZero, incRecent]) rfl rfl
      (by norm_num [incRecent, thirtyDays])
      (by norm_num [incOld, thirtyDays])⟩

/-- C5: with no hazard-indicator record (missing or empty indicators) the
breakdown's image entry is null, while a present record with severity
"none" and all five road-hazard flags false yields a numeric score — so
absence is always distinguishable from a present-but-neutral analysis. -/
theorem image_absent_vs_neutral_breakdown (w : WeatherData) (c : CrimeInput) :
    (∀ e : Bool,
      (calculate_safety_score ⟨none, e⟩ w c).image_analysis = none) ∧
    (∀ (ts : Bool) (li : String) (pp : Bool) (cl : String),
      (calculate_safety_score
          ⟨some ⟨⟨false, false, false, false, false⟩, "none", ts, li, pp, cl⟩,
            false⟩ w c).image_analysis
        = some (imageScore
            ⟨⟨false, false, false, false, false⟩, "none", ts, li, pp, cl⟩)) := by
  constructor
  · intro e
    rfl
  · intro ts li pp cl
    rfl

/-- C6: a present record with severity "critical", travel_safe false,
poor lighting, no people and poor cleanliness scores
max(5, 50-40-3-2) = 5 (no extra travel-safe penalty since severity is not
in {none, low}); and for every present record the image score placed in
the breakdown is `imageScore` and lies in [5, 100]. -/
theorem image_score_critical_and_bounds :
    (∀ rh : RoadHazards,
      imageScore ⟨rh, "critical", false, "poor", false, "poor"⟩ = 5) ∧
    (∀ ind : HazardIndicators,
      5 ≤ imageScore ind ∧ imageScore ind ≤ 100) ∧
    (∀ (ind : HazardIndicators) (w : WeatherData) (c : CrimeInput),
      (calculate_safety_score ⟨some ind, false⟩ w c).image_analysis
        = some (imageScore ind)) := by
  refine ⟨?_, ?_, ?_⟩
  · intro rh
    simp [imageScore]
  · intro ind
    simp only [imageScore]
    exact ⟨le_max_left _ _, max_le (by norm_num) (min_le_left _ _)⟩
  · intro ind w c
    rfl

/-- C10: the fusion never fails on absent optional keys: a missing
weather safety_impact behaves as "neutral" (factor 50), a missing
crime_rate behaves as 50 (factor 100-50 = 50), and a complete result is
returned. -/
theorem fusion_missing_keys_default (ia : ImageAnalysis) :
    calculate_safety_score ia ⟨none⟩ ⟨none⟩
      = calculate_safety_score ia ⟨some "neutral"⟩ ⟨some 50⟩ ∧
    (calculate_safety_score ia ⟨none⟩ ⟨none⟩).weather = 50 ∧
    (calculate_safety_score ia ⟨none⟩ ⟨none⟩).crime_data = 50 := by
  refine ⟨rfl, ?_, ?_⟩ <;>
    · obtain ⟨io, e⟩ := ia
      cases io <;> cases e <;>
        simp [calculate_safety_score] <;> norm_num

lemma get_incidents_near_locationE_error (dist : DistFn)
    (latitude longitude radius_km : Rat) :
    ∀ stored : List StoredIncident,
      (∃ i ∈ stored, i.latitude = none ∨ i.longitude = none) →
      ∃ e, get_incidents_near_locationE dist latitude longitude radius_km
            stored = .error e := by
  intro stored
  induction stored with
  | nil =>
    rintro ⟨i, hi, _⟩
    cases hi
  | cons a rest ih =>
    rintro ⟨i, hi, hbad⟩
    rcases List.mem_cons.mp hi with heq | hmem
    · subst heq
      cases hx : i.latitude with
      | none =>
        refine ⟨"KeyError: latitude/longitude", ?_⟩
        cases hy : i.longitude <;>
          simp [get_incidents_near_locationE, hx, hy]
      | some la =>
        cases hy : i.longitude with
        | none =>
          exact ⟨"KeyError: latitude/longitude",
            by simp [get_incidents_near_locationE, hx, hy]⟩
        | some lo =>
          rcases hbad with hb | hb
          · rw [hx] at hb; cases hb
          · rw [hy] at hb; cases hb
    · obtain ⟨e, he⟩ := ih ⟨i, hmem, hbad⟩
      cases hx : a.latitude with
      | none =>
        refine ⟨"KeyError: latitude/longitude", ?_⟩
        cases hy : a.longitude <;>
          simp [get_incidents_near_locationE, hx, hy]
      | some la =>
        cases hy : a.longitude with
        | none =>
          exact ⟨"KeyError: latitude/longitude",
            by simp [get_incidents_near_locationE, hx, hy]⟩
        | some lo =>
          exact ⟨e, by simp [get_incidents_near_locationE, hx, hy, he]⟩

/-- C7 (counterexample): with a well-formed incident followed by one
missing `reported_at`, both within the radius, the aggregation does not
skip the malformed record and score the rest — it fails with a KeyError
and returns no CrimeSignal at all. -/
theorem malformed_incident_counterexample :
    calculate_crime_score_from_incidentsE distZero 0 1 1 1
        [⟨some 1, some 1, some "theft", some 0⟩,
         ⟨some 1, some 1, some "theft", none⟩]
      = .error "KeyError: reported_at" := rfl

/-- C7 (amended): a stored record missing its latitude or longitude is
not skipped: the whole aggregation fails with a KeyError-style error and
no CrimeSignal is produced (likewise, the counterexample shows, for a
record within the radius missing `reported_at`). -/
theorem malformed_incident_aborts (dist : DistFn) (now : Int)
    (latitude longitude radius_km : Rat) (stored : List StoredIncident)
    (h : ∃ i ∈ stored, i.latitude = none ∨ i.longitude = none) :
    ∃ e, calculate_crime_score_from_incidentsE dist now latitude longitude
          radius_km stored = .error e := by
  obtain ⟨e, he⟩ :=
    get_incidents_near_locationE_error dist latitude longitude radius_km
      stored h
  exact ⟨e, by simp [calculate_crime_score_from_incidentsE, he]⟩

theorem malformed_incident_aborts_witness :
    ∃ e, calculate_crime_score_from_incidentsE distZero 0 1 1 1
          [⟨none, some 1, some "theft", some 0⟩] = .error e :=
  malformed_incident_aborts distZero 0 1 1 1 _
    ⟨⟨none, some 1, some "theft", some 0⟩, by simp, Or.inl rfl⟩

/-- C8 (counterexample): `report_incident` called with out-of-range
coordinates (200, 300) and an empty incident_type is not rejected: a
record is appended to the store and a success result returned. -/
theorem invalid_report_counterexample :
    (report_incident 0 [] 200 300 "" "").1.length = 1 ∧
    (report_incident 0 [] 200 300 "" "").2.success = true :=
  ⟨rfl, rfl⟩

/-- C8 (amended): `report_incident` performs no input validation at all:
for every latitude, longitude, incident_type and description — including
out-of-range coordinates and an empty type — it appends a record to the
store and returns success. -/
theorem report_incident_always_appends (now : Int) (store : List Incident)
    (latitude longitude : Rat) (incident_type description : String) :
    (report_incident now store latitude longitude incident_type
        description).1
      = store ++ [⟨store.length + 1, latitude, longitude, incident_type,
          description, now, false⟩] ∧
    (report_incident now store latitude longitude incident_type
        description).2
      = ⟨true, store.length + 1, "Incident reported successfully"⟩ :=
  ⟨rfl, rfl⟩

/-- C9: whenever the underlying aggregation fails with any error,
`get_crime_data` does not propagate it but returns the neutral fallback
crime_rate 20, safety_level "safe", recent_incidents 0. -/
theorem crime_fallback_on_error (dist : DistFn) (now : Int)
    (latitude longitude radius_km : Rat) (stored : List StoredIncident)
    (e : String)
    (h : calculate_crime_score_from_incidentsE dist now latitude longitude
          radius_km stored = .error e) :
    get_crime_data dist now latitude longitude radius_km stored
      = ⟨20, "safe", 0, some e⟩ := by
  simp [get_crime_data, h]

theorem crime_fallback_on_error_witness :
    get_crime_data distZero 0 1 1 1 [⟨some 1, some 1, some "theft", none⟩]
      = ⟨20, "safe", 0, some "KeyError: reported_at"⟩ :=
  crime_fallback_on_error distZero 0 1 1 1 _ _ rfl
